import Mathlib

/-!
Verification of the cube engine in `mofang.py` (repository MoFang).

The Python module stores the cube as a dict from the six face names
"U","D","L","R","F","B" to 3x3 lists of one-character color strings.
We embed each 3x3 grid as a nine-field structure `Face α`, the dict as a
six-field structure `CubeState α`, and transcribe the operations
`_rotate_face`, `_cycle_edges`, `rotate`, `move` and `scramble`.
Colors are kept generic in `α`; the concrete initial state uses `Char`.
-/

/-- A 3x3 sticker grid (`Face = List[List[str]]` in the source, always 3x3).
`mRC` is the cell at row `R`, column `C`. -/
structure Face (α : Type) where
  m00 : α
  m01 : α
  m02 : α
  m10 : α
  m11 : α
  m12 : α
  m20 : α
  m21 : α
  m22 : α
  deriving DecidableEq, Repr

/-- The cube state: the dict `self.state` with its six keys
(insertion order U, D, L, R, F, B as in `_default_colors`). -/
structure CubeState (α : Type) where
  U : Face α
  D : Face α
  L : Face α
  R : Face α
  F : Face α
  B : Face α
  deriving DecidableEq, Repr

/-- The six face identities (the dict keys, as an enumeration). -/
inductive FaceId where
  | U | D | L | R | F | B
  deriving DecidableEq, Repr

/-- A validated rotation direction: `CW = 1`, `CCW = -1` in the source. -/
inductive Dir where
  | cw | ccw
  deriving DecidableEq, Repr

/-- The distinct failure kinds of the core (each `raise ValueError` site). -/
inductive CubeError where
  | invalidFace (s : String) : CubeError
  | invalidDirection : CubeError
  deriving DecidableEq, Repr

/-- Dict lookup `self.state[face]`. -/
def getGrid {α : Type} (s : CubeState α) : FaceId → Face α
  | .U => s.U
  | .D => s.D
  | .L => s.L
  | .R => s.R
  | .F => s.F
  | .B => s.B

/-- Dict store `self.state[face] = g`. -/
def setGrid {α : Type} (s : CubeState α) (f : FaceId) (g : Face α) : CubeState α :=
  match f with
  | .U => { s with U := g }
  | .D => { s with D := g }
  | .L => { s with L := g }
  | .R => { s with R := g }
  | .F => { s with F := g }
  | .B => { s with B := g }

/-- Cell access `grid[r][c]` for in-range indices. -/
def cell {α : Type} (g : Face α) (r c : Fin 3) : α :=
  match r, c with
  | ⟨0, _⟩, ⟨0, _⟩ => g.m00
  | ⟨0, _⟩, ⟨1, _⟩ => g.m01
  | ⟨0, _⟩, ⟨2, _⟩ => g.m02
  | ⟨1, _⟩, ⟨0, _⟩ => g.m10
  | ⟨1, _⟩, ⟨1, _⟩ => g.m11
  | ⟨1, _⟩, ⟨2, _⟩ => g.m12
  | ⟨2, _⟩, ⟨0, _⟩ => g.m20
  | ⟨2, _⟩, ⟨1, _⟩ => g.m21
  | ⟨2, _⟩, ⟨2, _⟩ => g.m22
  | ⟨_ + 3, h⟩, _ => absurd h (by omega)
  | _, ⟨_ + 3, h⟩ => absurd h (by omega)

/-- A strip: one full row or column of a face, length 3
(the lists handled by `get_row`/`get_col`). -/
def Strip (α : Type) : Type := α × α × α

/-- List reversal `[::-1]` on a length-3 strip. -/
def Strip.rev {α : Type} : Strip α → Strip α
  | (a, b, c) => (c, b, a)

/-- `get_row(f, r)`: row `r` of a grid, left to right.
Only rows 0, 1, 2 occur in the source; larger indices fall through to row 2. -/
def getRow {α : Type} (g : Face α) : Nat → Strip α
  | 0 => (g.m00, g.m01, g.m02)
  | 1 => (g.m10, g.m11, g.m12)
  | _ => (g.m20, g.m21, g.m22)

/-- `get_col(f, c)`: column `c` of a grid, top to bottom. -/
def getCol {α : Type} (g : Face α) : Nat → Strip α
  | 0 => (g.m00, g.m10, g.m20)
  | 1 => (g.m01, g.m11, g.m21)
  | _ => (g.m02, g.m12, g.m22)

/-- `set_row(f, r, vals)`. -/
def setRow {α : Type} (g : Face α) (r : Nat) (v : Strip α) : Face α :=
  match r, v with
  | 0, (a, b, c) => { g with m00 := a, m01 := b, m02 := c }
  | 1, (a, b, c) => { g with m10 := a, m11 := b, m12 := c }
  | _, (a, b, c) => { g with m20 := a, m21 := b, m22 := c }

/-- `set_col(f, c, vals)`. -/
def setCol {α : Type} (g : Face α) (c : Nat) (v : Strip α) : Face α :=
  match c, v with
  | 0, (a, b, d) => { g with m00 := a, m10 := b, m20 := d }
  | 1, (a, b, d) => { g with m01 := a, m11 := b, m21 := d }
  | _, (a, b, d) => { g with m02 := a, m12 := b, m22 := d }

/-- `_rotate_face(face, CW)`: `zip(*face[::-1])`, so the result's cell
`(r, c)` is the input's cell `(2 - c, r)`. -/
def rotateFaceCW {α : Type} (g : Face α) : Face α :=
  { m00 := g.m20, m01 := g.m10, m02 := g.m00
    m10 := g.m21, m11 := g.m11, m12 := g.m01
    m20 := g.m22, m21 := g.m12, m22 := g.m02 }

/-- `_rotate_face(face, CCW)`: `zip(*face)[::-1]`, so the result's cell
`(r, c)` is the input's cell `(c, 2 - r)`. -/
def rotateFaceCCW {α : Type} (g : Face α) : Face α :=
  { m00 := g.m02, m01 := g.m12, m02 := g.m22
    m10 := g.m01, m11 := g.m11, m12 := g.m21
    m20 := g.m00, m21 := g.m10, m22 := g.m20 }

/-- The static method `_rotate_face(face, direction)` with its own
direction validation (`direction not in {CW, CCW}` raises).
It receives a single grid and returns a single grid, so by construction it
cannot read or write any other face. -/
def rotateFaceE {α : Type} (g : Face α) (direction : Int) : Except CubeError (Face α) :=
  if direction = 1 then .ok (rotateFaceCW g)
  else if direction = -1 then .ok (rotateFaceCCW g)
  else .error .invalidDirection

/-- `_cycle_edges(face, direction)`: the four adjacent strips are read
(snapshotted into `a`, `b`, `c`, `d`) before any write, then written back
cycled, with the reversals of the source. `direction` is already validated
here, so it is the enumeration `Dir`; the trailing `raise NotImplementedError`
of the Python is unreachable because `FaceId` covers all six keys. -/
def cycleEdges {α : Type} (face : FaceId) (direction : Dir) (s : CubeState α) : CubeState α :=
  match face with
  | .U =>
    let a := getRow s.F 0
    let b := getRow s.R 0
    let c := getRow s.B 0
    let d := getRow s.L 0
    match direction with
    | .cw =>
      { s with F := setRow s.F 0 d, R := setRow s.R 0 a,
               B := setRow s.B 0 b, L := setRow s.L 0 c }
    | .ccw =>
      { s with F := setRow s.F 0 b, R := setRow s.R 0 c,
               B := setRow s.B 0 d, L := setRow s.L 0 a }
  | .D =>
    let a := getRow s.F 2
    let b := getRow s.R 2
    let c := getRow s.B 2
    let d := getRow s.L 2
    match direction with
    | .cw =>
      { s with F := setRow s.F 2 d, R := setRow s.R 2 a,
               B := setRow s.B 2 b, L := setRow s.L 2 c }
    | .ccw =>
      { s with F := setRow s.F 2 b, R := setRow s.R 2 c,
               B := setRow s.B 2 d, L := setRow s.L 2 a }
  | .R =>
    let a := getCol s.U 2
    let b := getCol s.F 2
    let c := getCol s.D 2
    let d := (getCol s.B 0).rev
    match direction with
    | .cw =>
      { s with F := setCol s.F 2 a, D := setCol s.D 2 b,
               B := setCol s.B 0 c.rev, U := setCol s.U 2 d }
    | .ccw =>
      { s with F := setCol s.F 2 c, D := setCol s.D 2 d,
               B := setCol s.B 0 a.rev, U := setCol s.U 2 b }
  | .L =>
    let a := getCol s.U 0
    let b := getCol s.F 0
    let c := getCol s.D 0
    let d := (getCol s.B 2).rev
    match direction with
    | .cw =>
      { s with B := setCol s.B 2 a.rev, D := setCol s.D 0 d,
               F := setCol s.F 0 c, U := setCol s.U 0 b }
    | .ccw =>
      { s with B := setCol s.B 2 c.rev, D := setCol s.D 0 b,
               F := setCol s.F 0 a, U := setCol s.U 0 d }
  | .F =>
    let a := getRow s.U 2
    let b := getCol s.R 0
    let c := getRow s.D 0
    let d := getCol s.L 2
    match direction with
    | .cw =>
      { s with R := setCol s.R 0 a.rev, D := setRow s.D 0 b,
               L := setCol s.L 2 c.rev, U := setRow s.U 2 d }
    | .ccw =>
      { s with R := setCol s.R 0 c, D := setRow s.D 0 d.rev,
               L := setCol s.L 2 a, U := setRow s.U 2 b.rev }
  | .B =>
    let a := getRow s.U 0
    let b := getCol s.L 0
    let c := getRow s.D 2
    let d := getCol s.R 2
    match direction with
    | .cw =>
      { s with L := setCol s.L 0 a, D := setRow s.D 2 b.rev,
               R := setCol s.R 2 c, U := setRow s.U 0 d.rev }
    | .ccw =>
      { s with L := setCol s.L 0 c.rev, D := setRow s.D 2 d,
               R := setCol s.R 2 a.rev, U := setRow s.U 0 b }

/-- The valid face names: the keys of `self.state`. -/
def faceKeys : List String := ["U", "D", "L", "R", "F", "B"]

/-- `face in self.state`, as a lookup from name to identity. -/
def parseFace : String → Option FaceId
  | "U" => some .U
  | "D" => some .D
  | "L" => some .L
  | "R" => some .R
  | "F" => some .F
  | "B" => some .B
  | _ => none

/-- The body of `rotate` after validation: replace the face's own grid by
its rotation, then cycle the adjacent edges. -/
def rotatePure {α : Type} (f : FaceId) (d : Dir) (s : CubeState α) : CubeState α :=
  let own := match d with
    | .cw => rotateFaceCW (getGrid s f)
    | .ccw => rotateFaceCCW (getGrid s f)
  cycleEdges f d (setGrid s f own)

/-- `rotate(face, direction)`: validates `face` against the dict keys
(else `Invalid face`), then `direction in {1, -1}` (else the direction
error), then rotates the face's own grid and cycles the edges. Failure
happens before any state change, so the error carries no new state. -/
def rotate {α : Type} (s : CubeState α) (face : String) (direction : Int) :
    Except CubeError (CubeState α) :=
  match parseFace face with
  | none => .error (.invalidFace face)
  | some f =>
    if direction = 1 then .ok (rotatePure f .cw s)
    else if direction = -1 then .ok (rotatePure f .ccw s)
    else .error .invalidDirection

/-- `rotate` as a state transition: a Python exception leaves the mutated
object untouched (validation precedes mutation), so on error the state
component is the input state. -/
def rotateStep {α : Type} (s : CubeState α) (face : String) (direction : Int) :
    CubeState α × Option CubeError :=
  match rotate s face direction with
  | .ok s' => (s', none)
  | .error e => (s, some e)

/-- Whitespace tokenization, the composite `sequence.strip().split()`:
split on runs of whitespace, never producing empty tokens. `acc` holds the
characters of the current token in reverse. -/
def splitWsAux : List Char → List Char → List String
  | [], acc => if acc = [] then [] else [String.mk acc.reverse]
  | ch :: cs, acc =>
    if ch.isWhitespace then
      if acc = [] then splitWsAux cs []
      else String.mk acc.reverse :: splitWsAux cs []
    else splitWsAux cs (ch :: acc)

/-- `sequence.strip().split()`. -/
def tokenize (text : String) : List String := splitWsAux text.toList []

/-- The loop `for _ in range(turns): self.rotate(face, dir_sign)`: repeat
`rotate`, stopping at the first failure with the state reached so far. -/
def rotateN {α : Type} (s : CubeState α) (n : Nat) (face : String) (direction : Int) :
    CubeState α × Option CubeError :=
  match n with
  | 0 => (s, none)
  | m + 1 =>
    match rotate s face direction with
    | .ok s' => rotateN s' m face direction
    | .error e => (s, some e)

/-- One token of `move`: `tok[-1] == "2"` gives two clockwise turns of the
face `tok[:-1]`; otherwise `tok.endswith("'")` gives one counter-clockwise
turn of the face `tok[0]`; otherwise one clockwise turn of `tok[0]`.
Tokens from `tokenize` are never empty (`tok[-1]` cannot fail), so the
default of `getLastD` is arbitrary. -/
def applyToken {α : Type} (s : CubeState α) (tok : String) :
    CubeState α × Option CubeError :=
  if tok.toList.getLastD ' ' = '2' then
    rotateN s 2 (String.mk tok.toList.dropLast) 1
  else if tok.toList.getLastD ' ' = '\'' then
    rotateN s 1 (String.mk (tok.toList.take 1)) (-1)
  else
    rotateN s 1 (String.mk (tok.toList.take 1)) 1

/-- The token loop of `move`: tokens are applied left to right; a failure
stops the loop and keeps the state the earlier tokens produced. -/
def moveAux {α : Type} (s : CubeState α) : List String → CubeState α × Option CubeError
  | [] => (s, none)
  | t :: ts =>
    match applyToken s t with
    | (s', none) => moveAux s' ts
    | (s', some e) => (s', some e)

/-- `move(sequence)`. -/
def moveStr {α : Type} (s : CubeState α) (sequence : String) :
    CubeState α × Option CubeError :=
  moveAux s (tokenize sequence)

/-- The modifier pool of `scramble`: `["", "'", "2"]`. -/
def mods : List String := ["", "'", "2"]

/-- `random.choice(l)` for a known-nonempty list, driven by one value of
the random stream: every outcome of the uniform choice is realized by some
`n`, and every `n` yields a legal outcome. -/
def chooseFrom (l : List String) (n : Nat) : String := l.getD (n % l.length) ""

/-- The token-generation loop of `scramble(steps)`: at step `i` the face is
drawn from the keys other than `prev` (initially `prev = ""`, excluding
nothing) and a modifier from `mods`; `faceR` and `modR` are the two random
streams. -/
def scrambleTokens (faceR modR : Nat → Nat) : Nat → Nat → String → List String
  | 0, _, _ => []
  | n + 1, i, prev =>
    let cands := faceKeys.filter (fun f => f ≠ prev)
    let face := chooseFrom cands (faceR i)
    let m := chooseFrom mods (modR i)
    (face ++ m) :: scrambleTokens faceR modR n (i + 1) face

/-- `scramble(steps)`: build the token list, join it with single spaces,
apply it through `move`, and return the string alongside the state. -/
def scramble {α : Type} (s : CubeState α) (steps : Nat) (faceR modR : Nat → Nat) :
    (CubeState α × Option CubeError) × String :=
  let str := String.intercalate " " (scrambleTokens faceR modR steps 0 "")
  (moveStr s str, str)

/-- The solved initial state built by `__init__` from `_default_colors`. -/
def initState : CubeState Char :=
  { U := ⟨'W','W','W','W','W','W','W','W','W'⟩
    D := ⟨'Y','Y','Y','Y','Y','Y','Y','Y','Y'⟩
    L := ⟨'G','G','G','G','G','G','G','G','G'⟩
    R := ⟨'B','B','B','B','B','B','B','B','B'⟩
    F := ⟨'R','R','R','R','R','R','R','R','R'⟩
    B := ⟨'O','O','O','O','O','O','O','O','O'⟩ }

/-- The six color symbols of `_default_colors`. -/
def colors : List Char := ['W', 'Y', 'G', 'B', 'R', 'O']

/-- The 54 cells of the state, faces in dict order U, D, L, R, F, B,
each row-major. -/
def cells {α : Type} (s : CubeState α) : List α :=
  [s.U.m00, s.U.m01, s.U.m02, s.U.m10, s.U.m11, s.U.m12, s.U.m20, s.U.m21, s.U.m22,
   s.D.m00, s.D.m01, s.D.m02, s.D.m10, s.D.m11, s.D.m12, s.D.m20, s.D.m21, s.D.m22,
   s.L.m00, s.L.m01, s.L.m02, s.L.m10, s.L.m11, s.L.m12, s.L.m20, s.L.m21, s.L.m22,
   s.R.m00, s.R.m01, s.R.m02, s.R.m10, s.R.m11, s.R.m12, s.R.m20, s.R.m21, s.R.m22,
   s.F.m00, s.F.m01, s.F.m02, s.F.m10, s.F.m11, s.F.m12, s.F.m20, s.F.m21, s.F.m22,
   s.B.m00, s.B.m01, s.B.m02, s.B.m10, s.B.m11, s.B.m12, s.B.m20, s.B.m21, s.B.m22]

/-- The states reachable from the solved initial state by any sequence of
`rotate`, `move` and `scramble` calls, including calls that fail (a failed
`rotate` keeps the state; a failed `move` keeps the partial state). -/
inductive Reachable : CubeState Char → Prop where
  | init : Reachable initState
  | rot (s : CubeState Char) (face : String) (direction : Int) :
      Reachable s → Reachable (rotateStep s face direction).1
  | mov (s : CubeState Char) (sequence : String) :
      Reachable s → Reachable (moveStr s sequence).1
  | scr (s : CubeState Char) (steps : Nat) (faceR modR : Nat → Nat) :
      Reachable s → Reachable (scramble s steps faceR modR).1.1

/-- The face opposite a given face. -/
def opp : FaceId → FaceId
  | .U => .D
  | .D => .U
  | .L => .R
  | .R => .L
  | .F => .B
  | .B => .F

/-- A strip address on a face: a whole row or a whole column. -/
inductive StripSpec where
  | row (i : Nat)
  | col (i : Nat)
  deriving DecidableEq, Repr

/-- Overwrite the addressed strip of a grid. -/
def writeStrip {α : Type} (spec : StripSpec) (v : Strip α) (g : Face α) : Face α :=
  match spec with
  | .row i => setRow g i v
  | .col i => setCol g i v

/-- The strip of face `g` touched when face `f` is rotated, read off the
`_cycle_edges` branches; only meaningful when `g` is adjacent to `f`. -/
def stripOf : FaceId → FaceId → StripSpec
  | .U, _ => .row 0
  | .D, _ => .row 2
  | .R, .B => .col 0
  | .R, _ => .col 2
  | .L, .B => .col 2
  | .L, _ => .col 0
  | .F, .U => .row 2
  | .F, .D => .row 0
  | .F, .R => .col 0
  | .F, _ => .col 2
  | .B, .U => .row 0
  | .B, .D => .row 2
  | .B, .L => .col 0
  | .B, _ => .col 2

/-- A successful `rotate` is `rotatePure` at the parsed face and direction. -/
lemma rotate_ok_shape {α : Type} {s s' : CubeState α} {face : String} {direction : Int}
    (h : rotate s face direction = .ok s') : ∃ f d, s' = rotatePure f d s := by
  unfold rotate at h
  split at h
  · exact absurd h (by simp)
  · split at h
    · exact ⟨_, .cw, (Except.ok.inj h).symm⟩
    · split at h
      · exact ⟨_, .ccw, (Except.ok.inj h).symm⟩
      · exact absurd h (by simp)

/-- Preservation of a predicate along `rotateStep`. -/
lemma rotateStep_pres {α : Type} (P : CubeState α → Prop)
    (hstep : ∀ f d s, P s → P (rotatePure f d s))
    (s : CubeState α) (face : String) (direction : Int) (hP : P s) :
    P (rotateStep s face direction).1 := by
  unfold rotateStep
  cases hr : rotate s face direction with
  | ok s' =>
    obtain ⟨f, d, rfl⟩ := rotate_ok_shape hr
    exact hstep f d s hP
  | error e => exact hP

/-- Preservation along the turn loop of one token. -/
lemma rotateN_pres {α : Type} (P : CubeState α → Prop)
    (hstep : ∀ f d s, P s → P (rotatePure f d s)) :
    ∀ (n : Nat) (s : CubeState α) (face : String) (direction : Int),
      P s → P (rotateN s n face direction).1 := by
  intro n
  induction n with
  | zero => intro s face direction hP; exact hP
  | succ m ih =>
    intro s face direction hP
    unfold rotateN
    cases hr : rotate s face direction with
    | ok s' =>
      obtain ⟨f, d, rfl⟩ := rotate_ok_shape hr
      exact ih _ face direction (hstep f d s hP)
    | error e => exact hP

/-- Preservation along one move token. -/
lemma applyToken_pres {α : Type} (P : CubeState α → Prop)
    (hstep : ∀ f d s, P s → P (rotatePure f d s))
    (s : CubeState α) (tok : String) (hP : P s) : P (applyToken s tok).1 := by
  unfold applyToken
  split
  · exact rotateN_pres P hstep 2 s _ 1 hP
  · split
    · exact rotateN_pres P hstep 1 s _ (-1) hP
    · exact rotateN_pres P hstep 1 s _ 1 hP

/-- Preservation along a token list. -/
lemma moveAux_pres {α : Type} (P : CubeState α → Prop)
    (hstep : ∀ f d s, P s → P (rotatePure f d s)) :
    ∀ (ts : List String) (s : CubeState α), P s → P (moveAux s ts).1 := by
  intro ts
  induction ts with
  | nil => intro s hP; exact hP
  | cons t ts ih =>
    intro s hP
    unfold moveAux
    have ht : P (applyToken s t).1 := applyToken_pres P hstep s t hP
    cases h : applyToken s t with
    | mk s' e =>
      rw [h] at ht
      cases e with
      | none => exact ih s' ht
      | some err => exact ht

/-- Preservation along `move`. -/
lemma moveStr_pres {α : Type} (P : CubeState α → Prop)
    (hstep : ∀ f d s, P s → P (rotatePure f d s))
    (s : CubeState α) (sequence : String) (hP : P s) : P (moveStr s sequence).1 :=
  moveAux_pres P hstep (tokenize sequence) s hP

/-- Any predicate preserved by every 90° rotation and true initially holds
for every reachable state. -/
lemma reachable_invariant (P : CubeState Char → Prop)
    (hstep : ∀ f d s, P s → P (rotatePure f d s)) (hinit : P initState) :
    ∀ s, Reachable s → P s := by
  intro s h
  induction h with
  | init => exact hinit
  | rot s face direction _ ih => exact rotateStep_pres P hstep s face direction ih
  | mov s sequence _ ih => exact moveStr_pres P hstep s sequence ih
  | scr s steps faceR modR _ ih => exact moveStr_pres P hstep s _ ih

/-- The six center cells of a state, in dict order. -/
def centers {α : Type} (s : CubeState α) : α × α × α × α × α × α :=
  (s.U.m11, s.D.m11, s.L.m11, s.R.m11, s.F.m11, s.B.m11)

/-- No 90° rotation moves a center cell: the face's own rotation fixes
`m11` and every cycled strip is a row or column of index 0 or 2. -/
lemma centers_rotatePure {α : Type} (f : FaceId) (d : Dir) (s : CubeState α) :
    centers (rotatePure f d s) = centers s := by
  cases f <;> cases d <;> rfl

/-- Every 90° rotation permutes the 54 sticker values: the count of each
symbol is unchanged. -/
lemma count_rotatePure (x : Char) (f : FaceId) (d : Dir) (s : CubeState Char) :
    (cells (rotatePure f d s)).count x = (cells s).count x := by
  obtain ⟨⟨a1,a2,a3,a4,a5,a6,a7,a8,a9⟩,⟨b1,b2,b3,b4,b5,b6,b7,b8,b9⟩,
    ⟨c1,c2,c3,c4,c5,c6,c7,c8,c9⟩,⟨d1,d2,d3,d4,d5,d6,d7,d8,d9⟩,
    ⟨e1,e2,e3,e4,e5,e6,e7,e8,e9⟩,⟨f1,f2,f3,f4,f5,f6,f7,f8,f9⟩⟩ := s
  cases f <;> cases d <;>
    simp only [cells, rotatePure, cycleEdges, setGrid, getGrid, rotateFaceCW,
      rotateFaceCCW, getRow, getCol, setRow, setCol, Strip.rev] <;>
    simp only [List.count_cons, List.count_nil] <;>
    ac_rfl

/-- `chooseFrom` on a nonempty list picks a member of the list. -/
lemma chooseFrom_mem (l : List String) (n : Nat) (h : l ≠ []) : chooseFrom l n ∈ l := by
  unfold chooseFrom
  have hlen : 0 < l.length := List.length_pos.mpr h
  have hlt : n % l.length < l.length := Nat.mod_lt _ hlen
  rw [List.getD_eq_getElem l "" hlt]
  exact List.getElem_mem _

/-- Excluding one previous face always leaves a candidate: the six keys are
distinct, so at most one is removed. -/
lemma filter_faceKeys_ne_nil (prev : String) :
    faceKeys.filter (fun f => f ≠ prev) ≠ [] := by
  intro hc
  by_cases h : "U" = prev
  · have : "D" ∈ faceKeys.filter (fun f => f ≠ prev) := by
      refine List.mem_filter.mpr ⟨by decide, ?_⟩
      subst h
      decide
    rw [hc] at this
    exact absurd this (List.not_mem_nil _)
  · have : "U" ∈ faceKeys.filter (fun f => f ≠ prev) := by
      refine List.mem_filter.mpr ⟨by decide, ?_⟩
      exact decide_eq_true h
    rw [hc] at this
    exact absurd this (List.not_mem_nil _)

/-- Well-formedness of a scramble token list relative to the face of the
preceding token: each token is a face key followed by a modifier from
`mods`, and its face differs from the previous token's face. -/
inductive TokensOK : String → List String → Prop where
  | nil (prev : String) : TokensOK prev []
  | cons (prev f m : String) (rest : List String) :
      f ∈ faceKeys → f ≠ prev → m ∈ mods → TokensOK f rest →
      TokensOK prev ((f ++ m) :: rest)

/-- The scramble generator only emits well-formed token lists. -/
lemma scrambleTokens_ok (faceR modR : Nat → Nat) :
    ∀ (n i : Nat) (prev : String), TokensOK prev (scrambleTokens faceR modR n i prev) := by
  intro n
  induction n with
  | zero => intro i prev; exact .nil prev
  | succ k ih =>
    intro i prev
    have hne := filter_faceKeys_ne_nil prev
    have hmem := chooseFrom_mem _ (faceR i) hne
    have hface : chooseFrom (faceKeys.filter (fun f => f ≠ prev)) (faceR i) ∈ faceKeys :=
      (List.mem_filter.mp hmem).1
    have hprev : chooseFrom (faceKeys.filter (fun f => f ≠ prev)) (faceR i) ≠ prev :=
      of_decide_eq_true (List.mem_filter.mp hmem).2
    have hmod : chooseFrom mods (modR i) ∈ mods :=
      chooseFrom_mem _ (modR i) (by decide)
    exact .cons prev _ _ _ hface hprev hmod (ih (i + 1) _)

/-- The scramble generator emits exactly `n` tokens. -/
lemma scrambleTokens_length (faceR modR : Nat → Nat) :
    ∀ (n i : Nat) (prev : String), (scrambleTokens faceR modR n i prev).length = n := by
  intro n
  induction n with
  | zero => intro i prev; rfl
  | succ k ih =>
    intro i prev
    unfold scrambleTokens
    rw [List.length_cons, ih]

/-- `parseFace` rejects exactly the strings outside the six keys. -/
lemma parseFace_eq_none_iff (face : String) : parseFace face = none ↔ face ∉ faceKeys := by
  unfold parseFace
  split <;> simp_all [faceKeys]

/-- C1: for every cube state, every face in {U,D,L,R,F,B} and both valid
directions, four successive `rotate` calls return the cube to its
pre-rotation state, grid for grid. -/
theorem rotate_four_times_identity {α : Type} (s : CubeState α) (face : String)
    (direction : Int) (hface : face ∈ faceKeys) (hdir : direction = 1 ∨ direction = -1) :
    (((rotate s face direction).bind (rotate · face direction)).bind
        (rotate · face direction)).bind (rotate · face direction) = .ok s := by
  fin_cases hface <;> rcases hdir with rfl | rfl <;> rfl

/-- Witness for C1 at the solved state, face U, clockwise. -/
theorem rotate_four_times_identity_witness :
    "U" ∈ faceKeys ∧ ((1 : Int) = 1 ∨ (1 : Int) = -1) ∧
    (((rotate initState "U" 1).bind (rotate · "U" 1)).bind
        (rotate · "U" 1)).bind (rotate · "U" 1) = .ok initState :=
  ⟨by decide, Or.inl rfl, rotate_four_times_identity initState "U" 1 (by decide) (Or.inl rfl)⟩

/-- C2: for every cube state and face, a clockwise `rotate` followed by a
counter-clockwise one (and vice versa) returns the pre-rotation state. -/
theorem rotate_then_inverse_identity {α : Type} (s : CubeState α) (face : String)
    (hface : face ∈ faceKeys) :
    (rotate s face 1).bind (rotate · face (-1)) = .ok s ∧
    (rotate s face (-1)).bind (rotate · face 1) = .ok s := by
  fin_cases hface <;> exact ⟨rfl, rfl⟩

/-- Witness for C2 at the solved state, face F. -/
theorem rotate_then_inverse_identity_witness :
    "F" ∈ faceKeys ∧
    ((rotate initState "F" 1).bind (rotate · "F" (-1)) = .ok initState ∧
      (rotate initState "F" (-1)).bind (rotate · "F" 1) = .ok initState) :=
  ⟨by decide, rotate_then_inverse_identity initState "F" (by decide)⟩

/-- Counterexample to C3: the move string "D2'" is not rejected at all —
`move` returns no error and performs one counter-clockwise D turn,
because the `tok[-1] == "2"` test fails and the `endswith("'")` branch
takes `tok[0]` as the face. -/
theorem token_two_prime_not_rejected :
    (moveStr initState "D2'").2 = none ∧
    (moveStr initState "D2'").1 = (rotateStep initState "D" (-1)).1 := by
  exact ⟨rfl, by decide⟩

/-- C3 as amended: a token that combines the `2` and `'` modifiers is
silently accepted; since it ends with `'`, it is parsed as a single
counter-clockwise turn of the face named by its first character, so
"X2'" behaves exactly like "X'". -/
theorem token_two_prime_parsed_as_ccw {α : Type} (s : CubeState α) (face : String)
    (hface : face ∈ faceKeys) :
    moveStr s (face ++ "2'") = rotateStep s face (-1) ∧
    moveStr s (face ++ "2'") = moveStr s (face ++ "'") := by
  fin_cases hface <;> exact ⟨rfl, rfl⟩

/-- Witness for the amended C3 at the solved state, face D. -/
theorem token_two_prime_parsed_as_ccw_witness :
    "D" ∈ faceKeys ∧
    (moveStr initState ("D" ++ "2'") = rotateStep initState "D" (-1) ∧
      moveStr initState ("D" ++ "2'") = moveStr initState ("D" ++ "'")) :=
  ⟨by decide, token_two_prime_parsed_as_ccw initState "D" (by decide)⟩

/-- C4: in every state reachable from the solved initial state by any
sequence of rotate/move/scramble calls, every face's center cell still
holds its original solved-state color. -/
theorem reachable_centers_fixed (s : CubeState Char) (h : Reachable s) :
    centers s = ('W', 'Y', 'G', 'B', 'R', 'O') := by
  refine reachable_invariant (fun t => centers t = ('W', 'Y', 'G', 'B', 'R', 'O'))
    ?_ rfl s h
  intro f d t ht
  rw [centers_rotatePure, ht]

/-- Witness for C4 at the initial state itself. -/
theorem reachable_centers_fixed_witness :
    centers initState = ('W', 'Y', 'G', 'B', 'R', 'O') :=
  reachable_centers_fixed initState Reachable.init

/-- C5: in every reachable state, each of the six color symbols occurs
exactly 9 times among the 54 cells. -/
theorem reachable_color_counts (s : CubeState Char) (h : Reachable s) :
    ∀ c ∈ colors, (cells s).count c = 9 := by
  have hall : ∀ x, (cells s).count x = (cells initState).count x :=
    reachable_invariant (fun t => ∀ x, (cells t).count x = (cells initState).count x)
      (fun f d t ht x => (count_rotatePure x f d t).trans (ht x)) (fun _ => rfl) s h
  intro c hc
  fin_cases hc <;> rw [hall] <;> decide

/-- Witness for C5 at the initial state and the color W. -/
theorem reachable_color_counts_witness :
    'W' ∈ colors ∧ (cells initState).count 'W' = 9 :=
  ⟨by decide, reachable_color_counts initState Reachable.init 'W' (by decide)⟩

/-- C6: `_rotate_face` maps cell `(r, c)` to the input's `(2 − c, r)`
clockwise and to `(c, 2 − r)` counter-clockwise, and fails with the
direction error on any other direction value. It receives and returns a
single grid, so it cannot read or write any other face's grid. -/
theorem rotateFace_formula {α : Type} (g : Face α) (direction : Int) :
    (direction = 1 → rotateFaceE g direction = .ok (rotateFaceCW g) ∧
      ∀ r c : Fin 3, cell (rotateFaceCW g) r c = cell g ⟨2 - c.1, by omega⟩ ⟨r.1, r.2⟩) ∧
    (direction = -1 → rotateFaceE g direction = .ok (rotateFaceCCW g) ∧
      ∀ r c : Fin 3, cell (rotateFaceCCW g) r c = cell g ⟨c.1, c.2⟩ ⟨2 - r.1, by omega⟩) ∧
    (direction ≠ 1 → direction ≠ -1 → rotateFaceE g direction = .error .invalidDirection) := by
  refine ⟨fun h => ?_, fun h => ?_, fun h1 h2 => ?_⟩
  · subst h
    refine ⟨rfl, ?_⟩
    intro r c
    fin_cases r <;> fin_cases c <;> rfl
  · subst h
    refine ⟨rfl, ?_⟩
    intro r c
    fin_cases r <;> fin_cases c <;> rfl
  · unfold rotateFaceE
    rw [if_neg h1, if_neg h2]

/-- Witness for C6: a concrete grid rotated clockwise, and a rejected
direction value 0. -/
theorem rotateFace_formula_witness :
    rotateFaceE (Face.mk 'a' 'b' 'c' 'd' 'e' 'f' 'g' 'h' 'i') 1 =
      .ok (rotateFaceCW (Face.mk 'a' 'b' 'c' 'd' 'e' 'f' 'g' 'h' 'i')) ∧
    rotateFaceE (Face.mk 'a' 'b' 'c' 'd' 'e' 'f' 'g' 'h' 'i') 0 =
      .error .invalidDirection :=
  ⟨((rotateFace_formula (Face.mk 'a' 'b' 'c' 'd' 'e' 'f' 'g' 'h' 'i') 1).1 rfl).1,
    (rotateFace_formula (Face.mk 'a' 'b' 'c' 'd' 'e' 'f' 'g' 'h' 'i') 0).2.2
      (by decide) (by decide)⟩

/-- C7: the move token "X2" performs exactly the loop of two clockwise
`rotate` calls, and so equals the move string "X X"; no separate
180-degree algorithm exists. -/
theorem double_token_eq_two_cw_turns {α : Type} (s : CubeState α) (face : String)
    (hface : face ∈ faceKeys) :
    moveStr s (face ++ "2") = rotateN s 2 face 1 ∧
    moveStr s (face ++ "2") = moveStr s (face ++ " " ++ face) := by
  fin_cases hface <;> exact ⟨rfl, rfl⟩

/-- Witness for C7 at the solved state, face R. -/
theorem double_token_eq_two_cw_turns_witness :
    "R" ∈ faceKeys ∧
    (moveStr initState ("R" ++ "2") = rotateN initState 2 "R" 1 ∧
      moveStr initState ("R" ++ "2") = moveStr initState ("R" ++ " " ++ "R")) :=
  ⟨by decide, double_token_eq_two_cw_turns initState "R" (by decide)⟩

/-- C8: `rotate` with an unknown face name fails with the invalid-face
error, with a known face but a direction outside {1, -1} it fails with the
invalid-direction error, and in both cases the state is unchanged
(validation precedes any mutation; the face check runs first). -/
theorem rotate_validation_errors {α : Type} (s : CubeState α) (face : String)
    (direction : Int) :
    (face ∉ faceKeys → rotateStep s face direction = (s, some (.invalidFace face))) ∧
    (face ∈ faceKeys → direction ≠ 1 → direction ≠ -1 →
      rotateStep s face direction = (s, some .invalidDirection)) := by
  constructor
  · intro h
    unfold rotateStep rotate
    rw [(parseFace_eq_none_iff face).mpr h]
  · intro hf h1 h2
    fin_cases hf <;>
      · simp only [rotateStep, rotate, parseFace]
        rw [if_neg h1, if_neg h2]

/-- Witness for C8: an unknown face "X", and face U with direction 0. -/
theorem rotate_validation_errors_witness :
    rotateStep initState "X" 1 = (initState, some (.invalidFace "X")) ∧
    rotateStep initState "U" 0 = (initState, some .invalidDirection) :=
  ⟨(rotate_validation_errors initState "X" 1).1 (by decide),
    (rotate_validation_errors initState "U" 0).2 (by decide) (by decide) (by decide)⟩

/-- C9: for every positive step count and every outcome of the two random
streams, `scramble` emits exactly `steps` tokens, each a face key followed
by a modifier from {none, ', 2}, with no immediate face repetition (the
first token's predecessor is the empty string, excluding nothing); the
returned string is their space-join, and the state after the call is the
result of feeding that returned string through `move`. -/
theorem scramble_spec {α : Type} (s : CubeState α) (steps : Nat)
    (faceR modR : Nat → Nat) (hpos : 0 < steps) :
    (scrambleTokens faceR modR steps 0 "").length = steps ∧
    TokensOK "" (scrambleTokens faceR modR steps 0 "") ∧
    (scramble s steps faceR modR).2 =
      String.intercalate " " (scrambleTokens faceR modR steps 0 "") ∧
    (scramble s steps faceR modR).1 = moveStr s (scramble s steps faceR modR).2 :=
  ⟨scrambleTokens_length faceR modR steps 0 "",
    scrambleTokens_ok faceR modR steps 0 "", rfl, rfl⟩

/-- Witness for C9 with 3 steps and the identity random streams. -/
theorem scramble_spec_witness :
    0 < 3 ∧
    ((scrambleTokens id id 3 0 "").length = 3 ∧
      TokensOK "" (scrambleTokens id id 3 0 "") ∧
      (scramble initState 3 id id).2 =
        String.intercalate " " (scrambleTokens id id 3 0 "") ∧
      (scramble initState 3 id id).1 = moveStr initState (scramble initState 3 id id).2) :=
  ⟨by decide, scramble_spec initState 3 id id (by decide)⟩

/-- C10: rotating a face (any valid direction reduces `rotate` to
`rotatePure`) leaves the opposite face's whole grid unchanged, and on every
other face only the single strip named by the `_cycle_edges` branch can
change: the new grid is the old grid with just that strip overwritten. -/
theorem rotate_frame {α : Type} (s : CubeState α) (f : FaceId) (d : Dir) :
    getGrid (rotatePure f d s) (opp f) = getGrid s (opp f) ∧
    ∀ g, g ≠ f → g ≠ opp f →
      ∃ v : Strip α, getGrid (rotatePure f d s) g = writeStrip (stripOf f g) v (getGrid s g) := by
  cases f <;> cases d <;>
    refine ⟨rfl, ?_⟩ <;> intro g h1 h2 <;> cases g <;>
    first
      | exact absurd rfl h1
      | exact absurd rfl h2
      | exact ⟨(_, _, _), rfl⟩

/-- Witness for C10: rotating U clockwise on the solved state fixes D and
touches only F's top row. -/
theorem rotate_frame_witness :
    getGrid (rotatePure .U .cw initState) (opp .U) = getGrid initState (opp .U) ∧
    ∃ v : Strip Char, getGrid (rotatePure .U .cw initState) .F =
      writeStrip (stripOf .U .F) v (getGrid initState .F) :=
  ⟨(rotate_frame initState .U .cw).1,
    (rotate_frame initState .U .cw).2 .F (by decide) (by decide)⟩
